import Mathlib

/-!
Shallow embedding of the data-quality layer of the CryptoAPIs collector
(src/data_quality.py, src/collector.py, src/database.py).

Real numbers of the Python code (floats) are modelled as rationals; Python
ints as integers.  Each definition mirrors one Python function; state that
the Python code keys by (symbol, timeframe) through defaultdicts is
modelled per key as a `PairState`, since every operation touches only its
own key.
-/

/-- Python `max` on two strings: lexicographic (alphabetical) comparison,
as used at data_quality.py:176 and :195 on the severity strings. -/
def pyStrMax (a b : String) : String := if a < b then b else a

/-- Python `int(...)` applied to a float: truncation toward zero. -/
def pyInt (q : ℚ) : ℤ := if 0 ≤ q then ⌊q⌋ else ⌈q⌉

/-- Python slice `l[-n:]` (data_quality.py:62): for n = 0 this is `l[0:] = l`,
otherwise the last `min n (length l)` elements. -/
def pySliceLast {α : Type} (n : ℕ) (l : List α) : List α :=
  if n = 0 then l else l.drop (l.length - n)

/-- Arithmetic mean, `np.mean`.  Callers only apply it to nonempty lists
(the empty case divides by zero and is unreachable in the code). -/
def listMean (l : List ℚ) : ℚ := l.sum / l.length

/-- Population variance; `np.std` is the square root of this value.  The
square root of a rational is irrational in general, so the statistics
record carries the square; no code path ever reads the std value back. -/
def listVar (l : List ℚ) : ℚ := listMean (l.map (fun x => (x - listMean l) ^ 2))

/-- Linear-interpolation percentile, `np.percentile(l, q)` with the default
interpolation: sort ascending, virtual index `h = (n-1)*q/100`, interpolate
between the neighbouring order statistics.  `np.percentile` raises on an
empty input; callers guard nonemptiness, and the value returned on `[]`
here is arbitrary. -/
def percentile (l : List ℚ) (q : ℚ) : ℚ :=
  let s := l.insertionSort (· ≤ ·)
  if s.length = 0 then 0
  else
    let h : ℚ := ((s.length : ℚ) - 1) * q / 100
    let lo : ℕ := (⌊h⌋).toNat
    let hi : ℕ := (⌈h⌉).toNat
    let slo := s.getD lo 0
    let shi := s.getD hi 0
    slo + (h - (lo : ℚ)) * (shi - slo)

/-- One per-metric statistics block as stored by `_update_statistics`
(data_quality.py:88-101): mean, std (carried as its square `var`),
5th and 95th percentile. -/
structure StatBlock where
  mean : ℚ
  var : ℚ
  p5 : ℚ
  p95 : ℚ
deriving DecidableEq

/-- The `statistics[symbol][timeframe]` entry: a block for volume and one
for trades. -/
structure Stats where
  volume : StatBlock
  trades : StatBlock
deriving DecidableEq

/-- Per-(symbol, timeframe) monitor state: the two metric histories
(the volume and trades lists of `metrics_history[s][tf]`), the `baseline_complete`
flag and the optional `statistics` entry.  defaultdict defaults: empty
lists, `False`, absent statistics. -/
structure PairState where
  volume_hist : List ℚ
  trades_hist : List ℤ
  baseline_complete : Bool
  statistics : Option Stats
deriving DecidableEq

/-- Fresh per-key state as produced by the defaultdicts. -/
def emptyPair : PairState :=
  { volume_hist := [], trades_hist := [], baseline_complete := false, statistics := none }

/-- Elementwise embedding of an integer history into the rationals, as
numpy treats the trades list as floating point. -/
def intsToRats (l : List ℤ) : List ℚ := l.map Int.cast

/-- Statistics as recomputed by `_update_statistics` from the given
histories. -/
def mkStats (vh : List ℚ) (th : List ℤ) : Stats :=
  { volume := ⟨listMean vh, listVar vh, percentile vh 5, percentile vh 95⟩
    trades := ⟨listMean (intsToRats th), listVar (intsToRats th),
               percentile (intsToRats th) 5, percentile (intsToRats th) 95⟩ }

/-- `DataQualityMonitor._update_statistics` (data_quality.py:79-103): no-op
when either history is empty, else overwrite the statistics entry with
values recomputed from the current histories. -/
def updateStatistics (st : PairState) : PairState :=
  if st.volume_hist = [] ∨ st.trades_hist = [] then st
  else { st with statistics := some (mkStats st.volume_hist st.trades_hist) }

/-- `DataQualityMonitor.add_metrics` (data_quality.py:49-77).  `minPts` is
`self.min_data_points` (100, or 3 in debug mode); `s` is the
(volume, trades) pair taken from the data dict.  Skips entirely once the
baseline is complete; otherwise appends, trims each history to the last
`minPts` entries when it exceeds `minPts`, marks the baseline complete when
the history reaches `minPts`, and recomputes statistics. -/
def addMetrics (minPts : ℕ) (st : PairState) (s : ℚ × ℤ) : PairState :=
  if st.baseline_complete then st
  else
    let vh0 := st.volume_hist ++ [s.1]
    let th0 := st.trades_hist ++ [s.2]
    let vh := if vh0.length > minPts then pySliceLast minPts vh0 else vh0
    let th := if th0.length > minPts then pySliceLast minPts th0 else th0
    let complete := decide (vh.length ≥ minPts)
    updateStatistics
      { volume_hist := vh, trades_hist := th, baseline_complete := complete
        statistics := st.statistics }

/-- Result of `get_validation_thresholds`: the dict
`{baseline_complete, volume, trades}`; volume/trades are `None` while the
baseline is incomplete. -/
structure Thresholds where
  baseline_complete : Bool
  volume : Option ℚ
  trades : Option ℤ
deriving DecidableEq

/-- `DataQualityMonitor.get_validation_thresholds` (data_quality.py:105-137).
`hour` is `datetime.now().hour`.  Returns `none` when no statistics entry
exists; an incomplete record while the window is short; otherwise the 1st
percentile of each history, with the trades percentile truncated by
`int(...)`, both halved during the low-activity hours 0-7 and the trades
value truncated again by the final `int(min_trades)`. -/
def getValidationThresholds (minPts : ℕ) (st : PairState) (hour : ℕ) : Option Thresholds :=
  match st.statistics with
  | none => none
  | some _ =>
    if st.volume_hist.length < minPts then
      some { baseline_complete := false, volume := none, trades := none }
    else
      let minVolume : ℚ := percentile st.volume_hist 1
      let minTrades : ℤ := pyInt (percentile (intsToRats st.trades_hist) 1)
      if hour < 8 then
        some { baseline_complete := true
               volume := some (minVolume * (1 / 2))
               trades := some (pyInt ((minTrades : ℚ) * (1 / 2))) }
      else
        some { baseline_complete := true, volume := some minVolume, trades := some minTrades }

/-- The `metrics` dict built by `validate_data`; absent keys are `none`.
With no statistics entry the returned dict is empty (all fields `none`). -/
structure VMetrics where
  volume : Option ℚ
  trades : Option ℤ
  baseline_complete : Option Bool
  volume_deficit : Option ℚ
  trades_deficit : Option ℚ
deriving DecidableEq

/-- The empty metrics dict `{}`. -/
def emptyVMetrics : VMetrics := ⟨none, none, none, none, none⟩

/-- One element of the `warnings` list returned by `validate_data`: either a
plain info string, or a warning dict.  The dict also carries a formatted
human-readable message (not modelled; no caller branches on it). -/
inductive WarnItem where
  | info (msg : String)
  | warn (wtype : String) (severity : String)
deriving DecidableEq

/-- The `data` dict passed to `validate_data`; a `none` field models a
missing key. -/
structure InputData where
  volume : Option ℚ
  trades : Option ℤ
deriving DecidableEq

/-- `DataQualityMonitor.validate_data` (data_quality.py:139-205).  Missing
keys default to 0 via `data.get(k, 0)`.  On the complete-baseline path each
breached metric appends one warning; `max_severity` is folded with the
string `max` of Python starting from "low", and `is_valid` is the test that
`max_severity` differs from "high". -/
def validateData (minPts : ℕ) (st : PairState) (hour : ℕ) (data : InputData) :
    Bool × List WarnItem × VMetrics :=
  let volume : ℚ := data.volume.getD 0
  let trades : ℤ := data.trades.getD 0
  match getValidationThresholds minPts st hour with
  | none => (true, [WarnItem.info "Initializing validation metrics..."], emptyVMetrics)
  | some th =>
    let metrics0 : VMetrics :=
      { volume := some volume, trades := some trades
        baseline_complete := some th.baseline_complete
        volume_deficit := none, trades_deficit := none }
    if th.baseline_complete = false then
      (true, [WarnItem.info "Building baseline statistics..."], metrics0)
    else
      -- On this path the thresholds record always carries concrete values;
      -- the Python code indexes the dict directly.
      let tv : ℚ := th.volume.getD 0
      let tt : ℤ := th.trades.getD 0
      let maxSev0 := "low"
      let volBreach := volume < tv
      let m1 : VMetrics :=
        if volBreach then { metrics0 with volume_deficit := some (((tv - volume) / tv) * 100) }
        else metrics0
      let sevV := if volume < tv * (1 / 2) then "high"
                  else if volume < tv * (3 / 4) then "medium" else "low"
      let maxSev1 := if volBreach then pyStrMax maxSev0 sevV else maxSev0
      let warns1 : List WarnItem := if volBreach then [WarnItem.warn "low_volume" sevV] else []
      let trBreach := trades < tt
      let m2 : VMetrics :=
        if trBreach then
          { m1 with trades_deficit := some ((((tt : ℚ) - (trades : ℚ)) / (tt : ℚ)) * 100) }
        else m1
      let sevT := if (trades : ℚ) < (tt : ℚ) * (1 / 2) then "high"
                  else if (trades : ℚ) < (tt : ℚ) * (3 / 4) then "medium" else "low"
      let maxSev2 := if trBreach then pyStrMax maxSev1 sevT else maxSev1
      let warns2 := warns1 ++ (if trBreach then [WarnItem.warn "low_trades" sevT] else [])
      (if maxSev2 = "high" then false else true, warns2, m2)

/-- A historical OHLCV row as returned by the Store; only the fields that
`initialize_from_db` consumes are modelled. -/
structure Candle where
  timestamp : ℤ
  volume : ℚ
  num_trades : ℤ
deriving DecidableEq

/-- `DatabaseHandler.get_ohlcv_data` (database.py:130-170): filter the
stored rows by the optional start date and return them ordered by
`ORDER BY od.timestamp DESC` (newest first).  `rows` models the stored
rows for the requested (symbol, timeframe). -/
def getOhlcvData (rows : List Candle) (startDate : Option ℤ) : List Candle :=
  (rows.filter (fun c =>
    match startDate with
    | none => true
    | some s => decide (s ≤ c.timestamp))).insertionSort
    (fun a b => b.timestamp ≤ a.timestamp)

/-- `DataQualityMonitor.initialize_from_db` (data_quality.py:21-47): fetch
the historical rows, return `false` leaving the state untouched when the
batch is empty, else feed every candle through `add_metrics` in the order
the query returned them. -/
def initializeFromDb (minPts : ℕ) (st : PairState) (rows : List Candle)
    (startDate : Option ℤ) : Bool × PairState :=
  let historical := getOhlcvData rows startDate
  if historical = [] then (false, st)
  else
    (true, historical.foldl (fun s c => addMetrics minPts s (c.volume, c.num_trades)) st)

/-- The order in which `initialize_from_db` inserts (volume, trades) points
into the window. -/
def initInsertionOrder (rows : List Candle) (startDate : Option ℤ) : List (ℚ × ℤ) :=
  (getOhlcvData rows startDate).map (fun c => (c.volume, c.num_trades))

/-- One parsed kline as unpacked at collector.py:347-353. -/
structure Kline where
  openTime : ℤ
  open_price : ℚ
  high_price : ℚ
  low_price : ℚ
  close_price : ℚ
  volume : ℚ
  num_trades : ℤ
deriving DecidableEq

/-- Error classification raised by `validate_ohlcv_data`: the
`ValidationError` carrying its message. -/
inductive VError where
  | validation (msg : String)
deriving DecidableEq

/-- The timeframes subject to the extra price-variance checks
(collector.py:382). -/
def largerTimeframes : List String := ["5m", "15m", "1h", "4h", "1d"]

/-- `CryptoDataCollector.validate_ohlcv_data` (collector.py:341-443).
The dynamic thresholds (collector.py:366) are derived from recent Store
rows and the clock by `get_dynamic_thresholds`; they enter here as the
`dynMinTrades`/`dynMinVolume` parameters.  `st` is the monitor state for
the pair after any seeding by `initialize_quality_monitor`.  Structural
checks run first and raise `ValidationError`; only afterwards is the
sample recorded and statistically scored, returning the verdict together
with the updated monitor state. -/
def validateOhlcvData (minPts : ℕ) (timeframe : String) (dynMinTrades : ℤ)
    (dynMinVolume : ℚ) (st : PairState) (hour : ℕ) (k : Kline) :
    Except VError (Bool × PairState) :=
  if k.open_price ≤ 0 ∨ k.high_price ≤ 0 ∨ k.low_price ≤ 0 ∨ k.close_price ≤ 0 then
    Except.error (VError.validation "All prices must be positive")
  else if k.high_price < k.low_price then
    Except.error (VError.validation "High price cannot be lower than low price")
  else if k.volume < 0 then
    Except.error (VError.validation "Volume cannot be negative")
  else if k.num_trades < dynMinTrades then
    Except.error (VError.validation "Low trade count")
  else if k.volume < dynMinVolume then
    Except.error (VError.validation "Low volume")
  else if timeframe ∈ largerTimeframes ∧
      ((k.high_price - k.low_price) / k.low_price) * 100 < 1 / 100 then
    Except.error (VError.validation "Suspicious price range")
  else if timeframe ∈ largerTimeframes ∧ k.open_price = k.high_price ∧
      k.high_price = k.low_price ∧ k.low_price = k.close_price then
    Except.error (VError.validation "All OHLC prices identical")
  else
    let st1 := addMetrics minPts st (k.volume, k.num_trades)
    let r := validateData minPts st1 hour ⟨some k.volume, some k.num_trades⟩
    match r.2.1 with
    | [WarnItem.info _] => Except.ok (true, st1)
    | _ => Except.ok (r.1, st1)

/-- The sleep computation of `continuous_collection` (collector.py:328-329):
`sleep_time = max(0, 60 - collection_time)`. -/
def sleepTime (elapsed : ℚ) : ℚ := max 0 (60 - elapsed)

/-- Modelled from the spec (§4.3 Sleep), for comparison with `sleepTime`:
the sleep the spec describes is `max(0, period - elapsed)` plus a random
jitter draw `j` bounded by a few hundred milliseconds. -/
def specSleepWithJitter (elapsed j : ℚ) : ℚ := max 0 (60 - elapsed) + j

/-- A concrete completed baseline state: three (volume 10, trades 5)
samples recorded with the debug capacity of 3. -/
def stW : PairState :=
  { volume_hist := [10, 10, 10], trades_hist := [5, 5, 5], baseline_complete := true
    statistics := some ⟨⟨10, 0, 10, 10⟩, ⟨5, 0, 5, 5⟩⟩ }


/-! ### Evaluation helpers -/

/-- Mean of a constant window. -/
lemma listMean_replicate (n : ℕ) (hn : n ≠ 0) (c : ℚ) :
    listMean (List.replicate n c) = c := by
  have h : ((n : ℚ)) ≠ 0 := Nat.cast_ne_zero.mpr hn
  simp [listMean, List.sum_replicate, nsmul_eq_mul, List.length_replicate]
  field_simp

/-- Variance of a constant window. -/
lemma listVar_replicate (n : ℕ) (hn : n ≠ 0) (c : ℚ) :
    listVar (List.replicate n c) = 0 := by
  simp [listVar, List.map_replicate, listMean_replicate n hn]

/-- Any percentile of a constant window is that constant. -/
lemma percentile_replicate (n : ℕ) (hn : n ≠ 0) (c q : ℚ) (h0 : 0 ≤ q)
    (h1 : q ≤ 100) : percentile (List.replicate n c) q = c := by
  have hsorted : List.Sorted (· ≤ ·) (List.replicate n c) :=
    List.pairwise_replicate.mpr (Or.inr (le_refl c))
  have hn1 : (1 : ℚ) ≤ (n : ℚ) := by
    exact_mod_cast Nat.one_le_iff_ne_zero.mpr hn
  unfold percentile
  rw [hsorted.insertionSort_eq]
  simp only [List.length_replicate]
  rw [if_neg hn]
  have hq0 : 0 ≤ ((n : ℚ) - 1) * q / 100 := by
    apply div_nonneg _ (by norm_num)
    exact mul_nonneg (by linarith) h0
  have hqle : ((n : ℚ) - 1) * q / 100 ≤ (n : ℚ) - 1 := by
    rw [div_le_iff₀ (by norm_num : (0 : ℚ) < 100)]
    have := mul_le_mul_of_nonneg_left h1 (by linarith : (0 : ℚ) ≤ (n : ℚ) - 1)
    linarith
  have hlo : (⌊((n : ℚ) - 1) * q / 100⌋).toNat < n := by
    rw [Int.toNat_lt' hn, Int.floor_lt]
    push_cast
    linarith
  have hhi : (⌈((n : ℚ) - 1) * q / 100⌉).toNat < n := by
    rw [Int.toNat_lt' hn]
    have : (⌈((n : ℚ) - 1) * q / 100⌉ : ℤ) ≤ (n : ℤ) - 1 := by
      rw [Int.ceil_le]
      push_cast
      linarith
    omega
  rw [List.getD_eq_getElem _ _ (by simpa using hlo),
    List.getD_eq_getElem _ _ (by simpa using hhi),
    List.getElem_replicate, List.getElem_replicate]
  ring

/-- Casting a constant integer window. -/
lemma intsToRats_replicate (n : ℕ) (t : ℤ) :
    intsToRats (List.replicate n t) = List.replicate n (t : ℚ) := by
  simp [intsToRats, List.map_replicate]

/-- Statistics of a constant window. -/
lemma mkStats_replicate (n : ℕ) (hn : n ≠ 0) (c : ℚ) (t : ℤ) :
    mkStats (List.replicate n c) (List.replicate n t) =
      ⟨⟨c, 0, c, c⟩, ⟨(t : ℚ), 0, (t : ℚ), (t : ℚ)⟩⟩ := by
  unfold mkStats
  rw [intsToRats_replicate,
    listMean_replicate n hn, listMean_replicate n hn,
    listVar_replicate n hn, listVar_replicate n hn,
    percentile_replicate n hn c 5 (by norm_num) (by norm_num),
    percentile_replicate n hn c 95 (by norm_num) (by norm_num),
    percentile_replicate n hn _ 5 (by norm_num) (by norm_num),
    percentile_replicate n hn _ 95 (by norm_num) (by norm_num)]

/-- Python truncation on an integer value is the identity. -/
lemma pyInt_intCast (n : ℤ) : pyInt ((n : ℤ) : ℚ) = n := by
  unfold pyInt
  by_cases h : (0 : ℚ) ≤ (n : ℚ)
  · rw [if_pos h, Int.floor_intCast]
  · rw [if_neg h, Int.ceil_intCast]

/-- `stW` is reachable: it is what three debug-mode `add_metrics` calls on a
fresh pair produce. -/
lemma stW_reachable :
    [((10 : ℚ), (5 : ℤ)), (10, 5), (10, 5)].foldl (addMetrics 3) emptyPair = stW := by
  have h1 : addMetrics 3 emptyPair (10, 5) =
      ⟨[10], [5], false, some (mkStats [10] [5])⟩ := by
    simp [addMetrics, emptyPair, updateStatistics, pySliceLast]
  have h2 : addMetrics 3 (⟨[10], [5], false, some (mkStats [10] [5])⟩ : PairState) (10, 5) =
      ⟨[10, 10], [5, 5], false, some (mkStats [10, 10] [5, 5])⟩ := by
    simp [addMetrics, updateStatistics, pySliceLast]
  have h3 : addMetrics 3
        (⟨[10, 10], [5, 5], false, some (mkStats [10, 10] [5, 5])⟩ : PairState) (10, 5) =
      ⟨[10, 10, 10], [5, 5, 5], true, some (mkStats [10, 10, 10] [5, 5, 5])⟩ := by
    simp [addMetrics, updateStatistics, pySliceLast]
  have hm : mkStats [10, 10, 10] [5, 5, 5] = ⟨⟨10, 0, 10, 10⟩, ⟨5, 0, 5, 5⟩⟩ := by
    have := mkStats_replicate 3 (by norm_num) 10 5
    simpa [List.replicate] using this
  simp only [List.foldl, h1, h2, h3, hm, stW]

lemma percentile_ten : percentile [(10 : ℚ), 10, 10] 1 = 10 := by
  simpa [List.replicate] using
    percentile_replicate 3 (by norm_num) 10 1 (by norm_num) (by norm_num)

lemma percentile_five : percentile (intsToRats [(5 : ℤ), 5, 5]) 1 = 5 := by
  have h : intsToRats [(5 : ℤ), 5, 5] = [(5 : ℚ), 5, 5] := by
    simp [intsToRats]
  rw [h]
  simpa [List.replicate] using
    percentile_replicate 3 (by norm_num) ((5 : ℤ) : ℚ) 1 (by norm_num) (by norm_num)

lemma pyInt_five : pyInt (5 : ℚ) = 5 := by
  have h : ((5 : ℤ) : ℚ) = (5 : ℚ) := by norm_num
  rw [← h, pyInt_intCast]

/-- The thresholds of `stW` at an ordinary hour. -/
lemma thresholds_stW_12 : getValidationThresholds 3 stW 12 =
    some ⟨true, some 10, some 5⟩ := by
  simp [getValidationThresholds, stW, percentile_ten, percentile_five, pyInt_five]

lemma pyInt_five_halves : pyInt ((5 : ℚ) / 2) = 2 := by
  unfold pyInt
  rw [if_pos (by norm_num)]
  apply Int.floor_eq_iff.mpr
  constructor <;> norm_num

/-- The thresholds of `stW` during the low-activity hours. -/
lemma thresholds_stW_3 : getValidationThresholds 3 stW 3 =
    some ⟨true, some 5, some 2⟩ := by
  simp [getValidationThresholds, stW, percentile_ten, percentile_five, pyInt_five]
  norm_num [pyInt_five_halves]

lemma not_low_lt_high : ¬ (("low" : String) < "high") := by
  rw [String.lt_iff_toList_lt]
  decide

/-- Python string max of the severities "low" and "high" is "low", since
the comparison is alphabetical. -/
lemma pyStrMax_low_high : pyStrMax "low" "high" = "low" := by
  unfold pyStrMax
  rw [if_neg not_low_lt_high]

lemma updateStatistics_volume_hist (st : PairState) :
    (updateStatistics st).volume_hist = st.volume_hist := by
  unfold updateStatistics
  split <;> rfl

lemma updateStatistics_trades_hist (st : PairState) :
    (updateStatistics st).trades_hist = st.trades_hist := by
  unfold updateStatistics
  split <;> rfl

/-- Follows the wording of the spec (§4.1 record), for comparison with
`addMetrics`: append one point to the window; if the length now exceeds
the capacity, evict the oldest points. -/
def specWindow {α : Type} (cap : ℕ) (w : List α) (x : α) : List α :=
  if cap < (w ++ [x]).length then (w ++ [x]).drop ((w ++ [x]).length - cap) else w ++ [x]

/-- For a positive capacity the Python trim `l[-cap:]` agrees with the
append-then-evict window of the spec. -/
lemma trim_eq_specWindow {α : Type} (cap : ℕ) (hpos : 0 < cap) (l : List α) (x : α) :
    (if (l ++ [x]).length > cap then pySliceLast cap (l ++ [x]) else l ++ [x]) =
      specWindow cap l x := by
  unfold pySliceLast specWindow
  rcases lt_or_ge cap (l ++ [x]).length with hc | hc
  · rw [if_pos hc, if_pos hc, if_neg (Nat.pos_iff_ne_zero.mp hpos)]
  · rw [if_neg (not_lt.mpr hc), if_neg (not_lt.mpr hc)]

lemma specWindow_length {α : Type} (cap : ℕ) (l : List α) (x : α) :
    (specWindow cap l x).length = min (l.length + 1) cap := by
  unfold specWindow
  split
  · next hc =>
    rw [List.length_drop]
    simp only [List.length_append, List.length_cons, List.length_nil] at *
    omega
  · next hc =>
    simp only [List.length_append, List.length_cons, List.length_nil] at *
    omega

lemma specWindow_ne_nil {α : Type} (cap : ℕ) (hpos : 0 < cap) (l : List α) (x : α) :
    specWindow cap l x ≠ [] := by
  have h := specWindow_length cap l x
  intro hnil
  rw [hnil] at h
  simp at h
  omega

lemma specWindow_suffix {α : Type} (cap : ℕ) (l : List α) (x : α) :
    specWindow cap l x <:+ (l ++ [x]) := by
  unfold specWindow
  split
  · exact List.drop_suffix _ _
  · exact List.suffix_refl _

/-- `add_metrics` on a completed baseline is a no-op. -/
lemma addMetrics_complete (minPts : ℕ) (st : PairState) (s : ℚ × ℤ)
    (h : st.baseline_complete = true) : addMetrics minPts st s = st := by
  unfold addMetrics
  rw [h]
  rfl

/-- Explicit form of `add_metrics` on an incomplete baseline. -/
lemma addMetrics_incomplete (minPts : ℕ) (hpos : 0 < minPts) (st : PairState) (s : ℚ × ℤ)
    (h : st.baseline_complete = false) :
    addMetrics minPts st s =
      { volume_hist := specWindow minPts st.volume_hist s.1
        trades_hist := specWindow minPts st.trades_hist s.2
        baseline_complete := decide ((specWindow minPts st.volume_hist s.1).length ≥ minPts)
        statistics := some (mkStats (specWindow minPts st.volume_hist s.1)
                                    (specWindow minPts st.trades_hist s.2)) } := by
  unfold addMetrics
  rw [h]
  simp only [Bool.false_eq_true, if_false]
  rw [trim_eq_specWindow minPts hpos, trim_eq_specWindow minPts hpos]
  unfold updateStatistics
  rw [if_neg]
  push_neg
  exact ⟨specWindow_ne_nil minPts hpos _ _, specWindow_ne_nil minPts hpos _ _⟩

/-- The structural invariant maintained by `add_metrics`: both histories
have the same length, at most `minPts` entries, and an incomplete baseline
means a strictly short window. -/
def pairInv (minPts : ℕ) (st : PairState) : Prop :=
  st.volume_hist.length = st.trades_hist.length
  ∧ st.volume_hist.length ≤ minPts
  ∧ (st.baseline_complete = false → st.volume_hist.length < minPts)

lemma pairInv_empty (minPts : ℕ) (hpos : 0 < minPts) : pairInv minPts emptyPair :=
  ⟨rfl, Nat.zero_le _, fun _ => hpos⟩

lemma pairInv_step (minPts : ℕ) (hpos : 0 < minPts) (st : PairState) (s : ℚ × ℤ)
    (h : pairInv minPts st) : pairInv minPts (addMetrics minPts st s) := by
  obtain ⟨hlen, hle, hlt⟩ := h
  cases hb : st.baseline_complete with
  | true => rw [addMetrics_complete minPts st s hb]; exact ⟨hlen, hle, hlt⟩
  | false =>
    rw [addMetrics_incomplete minPts hpos st s hb]
    have hv := specWindow_length minPts st.volume_hist s.1
    have ht := specWindow_length minPts st.trades_hist s.2
    have hsmall := hlt hb
    refine ⟨?_, ?_, ?_⟩
    · simp only [hv, ht, hlen]
    · simp only [hv]; omega
    · intro hflag
      simp only [decide_eq_false_iff_not, ge_iff_le, not_le] at hflag
      exact hflag

lemma pairInv_foldl (minPts : ℕ) (hpos : 0 < minPts) (samples : List (ℚ × ℤ))
    (st : PairState) (h : pairInv minPts st) :
    pairInv minPts (samples.foldl (addMetrics minPts) st) := by
  induction samples generalizing st with
  | nil => exact h
  | cons hd tl ih => exact ih _ (pairInv_step minPts hpos st hd h)

/-- The descending-timestamp ordering of the two-candle example batch. -/
lemma getOhlcvData_pair_eval :
    getOhlcvData [⟨1, 10, 5⟩, ⟨2, 20, 7⟩] none = [⟨2, 20, 7⟩, ⟨1, 10, 5⟩] := by
  simp [getOhlcvData, List.insertionSort, List.orderedInsert]

/-- A concrete incomplete baseline state: three (volume 0, trades 0)
samples recorded with the production capacity of 100. -/
def st3 : PairState :=
  { volume_hist := [0, 0, 0], trades_hist := [0, 0, 0], baseline_complete := false
    statistics := some ⟨⟨0, 0, 0, 0⟩, ⟨0, 0, 0, 0⟩⟩ }

/-- `st3` is reachable: it is what three `add_metrics` calls on a fresh pair
produce in production mode. -/
lemma st3_reachable :
    [((0 : ℚ), (0 : ℤ)), (0, 0), (0, 0)].foldl (addMetrics 100) emptyPair = st3 := by
  have h1 : addMetrics 100 emptyPair (0, 0) =
      ⟨[0], [0], false, some (mkStats [0] [0])⟩ := by
    simp [addMetrics, emptyPair, updateStatistics, pySliceLast]
  have h2 : addMetrics 100 (⟨[0], [0], false, some (mkStats [0] [0])⟩ : PairState) (0, 0) =
      ⟨[0, 0], [0, 0], false, some (mkStats [0, 0] [0, 0])⟩ := by
    simp [addMetrics, updateStatistics, pySliceLast]
  have h3 : addMetrics 100
        (⟨[0, 0], [0, 0], false, some (mkStats [0, 0] [0, 0])⟩ : PairState) (0, 0) =
      ⟨[0, 0, 0], [0, 0, 0], false, some (mkStats [0, 0, 0] [0, 0, 0])⟩ := by
    simp [addMetrics, updateStatistics, pySliceLast]
  have hm : mkStats [0, 0, 0] [0, 0, 0] = ⟨⟨0, 0, 0, 0⟩, ⟨0, 0, 0, 0⟩⟩ := by
    have := mkStats_replicate 3 (by norm_num) 0 0
    simpa [List.replicate] using this
  simp only [List.foldl, h1, h2, h3, hm, st3]

/-! ### Claim theorems -/

/-- C1: evaluation of the code at the failing input of the claim.  With the
debug baseline of `stW` complete (min_volume 10, min_trades 5, hour 12), a
sample with volume 4 (40 percent of min_volume) and trades 5 (at threshold)
yields exactly one low_volume finding of severity high — but `is_valid` is
true, not false as the claim requires: the running maximum of severities is
taken with Python string `max`, which orders alphabetically and therefore
never reaches "high" from the initial "low". -/
theorem C1_code_behavior :
    validateData 3 stW 12 ⟨some 4, some 5⟩ =
      (true, [WarnItem.warn "low_volume" "high"],
        ⟨some 4, some 5, some true, some 60, none⟩) := by
  simp [validateData, thresholds_stW_12, pyStrMax_low_high]
  norm_num [pyStrMax_low_high]
  decide

/-- C2, counterexample: with zero recorded samples (a state strictly before
`min_data_points`), `validate_data` does return is_valid true, but the
returned metrics dict is empty and does not record baseline_complete =
false, contrary to the claim. -/
theorem C2_counterexample :
    emptyPair.volume_hist.length < 100
    ∧ (validateData 100 emptyPair 12 ⟨some 0, some 0⟩).1 = true
    ∧ (validateData 100 emptyPair 12 ⟨some 0, some 0⟩).2.2.baseline_complete ≠ some false := by
  refine ⟨by norm_num [emptyPair], ?_, ?_⟩ <;>
    simp [validateData, getValidationThresholds, emptyPair, emptyVMetrics]

/-- C2, amended: every validate call before `min_data_points` samples have
been recorded returns is_valid = true regardless of the magnitudes of
volume and trade count; when at least one sample has been recorded (a
statistics entry exists) the returned metrics record baseline_complete =
false, and with zero samples recorded the metrics dict is empty. -/
theorem C2_valid_while_learning (minPts : ℕ) (st : PairState) (hour : ℕ)
    (data : InputData) (hlen : st.volume_hist.length < minPts) :
    (validateData minPts st hour data).1 = true
    ∧ (st.statistics = none → (validateData minPts st hour data).2.2 = emptyVMetrics)
    ∧ (st.statistics.isSome = true →
        (validateData minPts st hour data).2.2.baseline_complete = some false) := by
  unfold validateData getValidationThresholds
  cases hst : st.statistics with
  | none => simp
  | some s => simp [hlen]

/-- C2, witness: the amended theorem at the reachable state `st3` (three
zero samples recorded, production capacity 100). -/
theorem C2_witness :
    (validateData 100 st3 12 ⟨some 0, some 0⟩).1 = true
    ∧ (st3.statistics = none → (validateData 100 st3 12 ⟨some 0, some 0⟩).2.2 = emptyVMetrics)
    ∧ (st3.statistics.isSome = true →
        (validateData 100 st3 12 ⟨some 0, some 0⟩).2.2.baseline_complete = some false) :=
  C2_valid_while_learning 100 st3 12 ⟨some 0, some 0⟩ (by decide)

/-- C3, counterexample: seeding from two historical candles with timestamps
1 and 2 inserts them newest first ((20, 7) before (10, 5)), not in the
oldest-to-newest order the claim states: the database query orders by
timestamp descending. -/
theorem C3_counterexample :
    initInsertionOrder [⟨1, 10, 5⟩, ⟨2, 20, 7⟩] none = [((20 : ℚ), (7 : ℤ)), (10, 5)]
    ∧ initInsertionOrder [⟨1, 10, 5⟩, ⟨2, 20, 7⟩] none ≠ [((10 : ℚ), (5 : ℤ)), (20, 7)] := by
  constructor
  · simp [initInsertionOrder, getOhlcvData_pair_eval]
  · simp [initInsertionOrder, getOhlcvData_pair_eval]

/-- C3, amended: for every seeding of a BaselineWindow from a nonempty
historical batch, the samples are inserted in newest-to-oldest timestamp
order (the query returns ORDER BY timestamp DESC), so capacity evictions
would remove the earliest-inserted, i.e. chronologically newest, sample
first; seeding reports success and folds `add_metrics` over exactly that
descending sequence. -/
theorem C3_desc_insertion (minPts : ℕ) (st : PairState) (rows : List Candle)
    (startDate : Option ℤ) (hne : getOhlcvData rows startDate ≠ []) :
    List.Sorted (fun a b : Candle => b.timestamp ≤ a.timestamp) (getOhlcvData rows startDate)
    ∧ (initializeFromDb minPts st rows startDate).1 = true
    ∧ (initializeFromDb minPts st rows startDate).2 =
        (getOhlcvData rows startDate).foldl
          (fun s c => addMetrics minPts s (c.volume, c.num_trades)) st := by
  haveI : IsTotal Candle (fun a b => b.timestamp ≤ a.timestamp) :=
    ⟨fun a b => le_total b.timestamp a.timestamp⟩
  haveI : IsTrans Candle (fun a b => b.timestamp ≤ a.timestamp) :=
    ⟨fun _ _ _ h1 h2 => le_trans h2 h1⟩
  refine ⟨?_, ?_, ?_⟩
  · unfold getOhlcvData
    exact List.sorted_insertionSort _ _
  · unfold initializeFromDb
    rw [if_neg hne]
  · unfold initializeFromDb
    rw [if_neg hne]

/-- C3, witness: the amended theorem on the concrete two-candle batch. -/
theorem C3_witness :
    List.Sorted (fun a b : Candle => b.timestamp ≤ a.timestamp)
      (getOhlcvData [⟨1, 10, 5⟩, ⟨2, 20, 7⟩] none)
    ∧ (initializeFromDb 3 emptyPair [⟨1, 10, 5⟩, ⟨2, 20, 7⟩] none).1 = true
    ∧ (initializeFromDb 3 emptyPair [⟨1, 10, 5⟩, ⟨2, 20, 7⟩] none).2 =
        (getOhlcvData [⟨1, 10, 5⟩, ⟨2, 20, 7⟩] none).foldl
          (fun s c => addMetrics 3 s (c.volume, c.num_trades)) emptyPair :=
  C3_desc_insertion 3 emptyPair [⟨1, 10, 5⟩, ⟨2, 20, 7⟩] none
    (by simp [getOhlcvData_pair_eval])

/-- C4, counterexample: on the reachable completed state `stW`, a record
call is a complete no-op — the new point (99, 99) is not appended and
nothing is evicted or recomputed, contrary to the claim that every record
call appends one point. -/
theorem C4_counterexample :
    stW.baseline_complete = true
    ∧ addMetrics 3 stW (99, 99) = stW
    ∧ (99 : ℚ) ∉ (addMetrics 3 stW (99, 99)).volume_hist := by
  have h : addMetrics 3 stW (99, 99) = stW := addMetrics_complete 3 stW (99, 99) rfl
  refine ⟨rfl, h, ?_⟩
  rw [h]
  norm_num [stW]

/-- C4, amended: a record call on an incomplete baseline appends the point
to both windows, evicts the oldest entries if the window would exceed the
capacity, and recomputes the statistics from the resulting windows; once
the baseline is complete, a record call leaves the state untouched. -/
theorem C4_record_semantics (minPts : ℕ) (hpos : 0 < minPts) (st : PairState)
    (s : ℚ × ℤ) :
    (st.baseline_complete = true → addMetrics minPts st s = st)
    ∧ (st.baseline_complete = false →
        (addMetrics minPts st s).volume_hist = specWindow minPts st.volume_hist s.1
        ∧ (addMetrics minPts st s).trades_hist = specWindow minPts st.trades_hist s.2
        ∧ (addMetrics minPts st s).statistics =
            some (mkStats (specWindow minPts st.volume_hist s.1)
                          (specWindow minPts st.trades_hist s.2))) := by
  constructor
  · intro h
    exact addMetrics_complete minPts st s h
  · intro h
    rw [addMetrics_incomplete minPts hpos st s h]
    exact ⟨rfl, rfl, rfl⟩

/-- C4, witness: the amended theorem on a fresh pair and the sample (1, 2)
with the debug capacity 3. -/
theorem C4_witness :
    (emptyPair.baseline_complete = true →
      addMetrics 3 emptyPair ((1 : ℚ), (2 : ℤ)) = emptyPair)
    ∧ (emptyPair.baseline_complete = false →
        (addMetrics 3 emptyPair ((1 : ℚ), (2 : ℤ))).volume_hist =
          specWindow 3 emptyPair.volume_hist 1
        ∧ (addMetrics 3 emptyPair ((1 : ℚ), (2 : ℤ))).trades_hist =
            specWindow 3 emptyPair.trades_hist 2
        ∧ (addMetrics 3 emptyPair ((1 : ℚ), (2 : ℤ))).statistics =
            some (mkStats (specWindow 3 emptyPair.volume_hist 1)
                          (specWindow 3 emptyPair.trades_hist 2))) :=
  C4_record_semantics 3 (by norm_num) emptyPair ((1 : ℚ), (2 : ℤ))

/-- C5: for every sequence of recorded samples the window length never
exceeds the configured capacity `minPts`, and a single record call either
leaves the windows untouched (completed baseline) or produces a suffix of
the appended window — that is, whenever points are removed it is exactly
the oldest ones. -/
theorem C5_window_bounded_fifo (minPts : ℕ) (hpos : 0 < minPts)
    (samples : List (ℚ × ℤ)) (st : PairState) (s : ℚ × ℤ) :
    ((samples.foldl (addMetrics minPts) emptyPair).volume_hist.length ≤ minPts
      ∧ (samples.foldl (addMetrics minPts) emptyPair).trades_hist.length ≤ minPts)
    ∧ (((addMetrics minPts st s).volume_hist = st.volume_hist
         ∧ (addMetrics minPts st s).trades_hist = st.trades_hist)
       ∨ ((addMetrics minPts st s).volume_hist <:+ (st.volume_hist ++ [s.1])
         ∧ (addMetrics minPts st s).trades_hist <:+ (st.trades_hist ++ [s.2]))) := by
  constructor
  · have h := pairInv_foldl minPts hpos samples emptyPair (pairInv_empty minPts hpos)
    obtain ⟨heq, hle, _⟩ := h
    exact ⟨hle, heq ▸ hle⟩
  · cases hb : st.baseline_complete with
    | true => exact Or.inl (by rw [addMetrics_complete minPts st s hb]; exact ⟨rfl, rfl⟩)
    | false =>
      right
      rw [addMetrics_incomplete minPts hpos st s hb]
      exact ⟨specWindow_suffix _ _ _, specWindow_suffix _ _ _⟩

/-- C5, witness: the theorem at capacity 3, a four-sample run, and one step
from the completed state `stW`. -/
theorem C5_witness :
    (([((1 : ℚ), (1 : ℤ)), (2, 2), (3, 3), (4, 4)].foldl
        (addMetrics 3) emptyPair).volume_hist.length ≤ 3
      ∧ ([((1 : ℚ), (1 : ℤ)), (2, 2), (3, 3), (4, 4)].foldl
          (addMetrics 3) emptyPair).trades_hist.length ≤ 3)
    ∧ (((addMetrics 3 stW ((7 : ℚ), (8 : ℤ))).volume_hist = stW.volume_hist
         ∧ (addMetrics 3 stW ((7 : ℚ), (8 : ℤ))).trades_hist = stW.trades_hist)
       ∨ ((addMetrics 3 stW ((7 : ℚ), (8 : ℤ))).volume_hist <:+ (stW.volume_hist ++ [7])
         ∧ (addMetrics 3 stW ((7 : ℚ), (8 : ℤ))).trades_hist <:+ (stW.trades_hist ++ [8]))) :=
  C5_window_bounded_fifo 3 (by norm_num) [((1 : ℚ), (1 : ℤ)), (2, 2), (3, 3), (4, 4)]
    stW ((7 : ℚ), (8 : ℤ))

/-- C6: once the baseline is complete, each metric strictly below its
threshold produces exactly one finding of its kind with severity high when
the value is below 50 percent of the threshold, medium when below 75
percent and low otherwise, and the metrics record the deficit
(threshold - value) / threshold * 100 for exactly the breached metrics; a
metric at or above its threshold produces no finding and no deficit. -/
theorem C6_findings_deficit_severity (minPts : ℕ) (st : PairState) (hour : ℕ)
    (tv : ℚ) (tt : ℤ) (volume : ℚ) (trades : ℤ)
    (hth : getValidationThresholds minPts st hour = some ⟨true, some tv, some tt⟩) :
    (validateData minPts st hour ⟨some volume, some trades⟩).2.1 =
      (if volume < tv then
        [WarnItem.warn "low_volume"
          (if volume < tv * (1 / 2) then "high"
           else if volume < tv * (3 / 4) then "medium" else "low")]
       else [])
      ++ (if trades < tt then
        [WarnItem.warn "low_trades"
          (if (trades : ℚ) < (tt : ℚ) * (1 / 2) then "high"
           else if (trades : ℚ) < (tt : ℚ) * (3 / 4) then "medium" else "low")]
       else [])
    ∧ (validateData minPts st hour ⟨some volume, some trades⟩).2.2.volume_deficit =
        (if volume < tv then some (((tv - volume) / tv) * 100) else none)
    ∧ (validateData minPts st hour ⟨some volume, some trades⟩).2.2.trades_deficit =
        (if trades < tt then some ((((tt : ℚ) - (trades : ℚ)) / (tt : ℚ)) * 100) else none) := by
  unfold validateData
  rw [hth]
  by_cases hv : volume < tv <;> by_cases ht : trades < tt <;>
    simp [hv, ht]

/-- C6, witness: the theorem at the completed state `stW` (thresholds 10
and 5 at hour 12) with a sample at 80 percent volume and threshold
trades. -/
theorem C6_witness :
    (validateData 3 stW 12 ⟨some 8, some 5⟩).2.1 =
      (if (8 : ℚ) < 10 then
        [WarnItem.warn "low_volume"
          (if (8 : ℚ) < 10 * (1 / 2) then "high"
           else if (8 : ℚ) < 10 * (3 / 4) then "medium" else "low")]
       else [])
      ++ (if (5 : ℤ) < 5 then
        [WarnItem.warn "low_trades"
          (if ((5 : ℤ) : ℚ) < ((5 : ℤ) : ℚ) * (1 / 2) then "high"
           else if ((5 : ℤ) : ℚ) < ((5 : ℤ) : ℚ) * (3 / 4) then "medium" else "low")]
       else [])
    ∧ (validateData 3 stW 12 ⟨some 8, some 5⟩).2.2.volume_deficit =
        (if (8 : ℚ) < 10 then some ((((10 : ℚ) - 8) / 10) * 100) else none)
    ∧ (validateData 3 stW 12 ⟨some 8, some 5⟩).2.2.trades_deficit =
        (if (5 : ℤ) < 5 then
          some (((((5 : ℤ) : ℚ) - ((5 : ℤ) : ℚ)) / ((5 : ℤ) : ℚ)) * 100) else none) :=
  C6_findings_deficit_severity 3 stW 12 10 5 8 5 thresholds_stW_12

/-- C7, counterexample: at the completed state `stW` during a low-activity
hour the computed min_trades is 2, while the 1st percentile of the trades
window times the 0.5 multiplier is 5/2 — the claim that min_trades equals
the percentile multiplied by the flat factor fails because the code
truncates with int() both before and after the multiplication. -/
theorem C7_counterexample :
    getValidationThresholds 3 stW 3 = some ⟨true, some 5, some 2⟩
    ∧ ((2 : ℤ) : ℚ) ≠ percentile (intsToRats stW.trades_hist) 1 * (1 / 2) := by
  refine ⟨thresholds_stW_3, ?_⟩
  have h : percentile (intsToRats stW.trades_hist) 1 = 5 := by
    simpa [stW] using percentile_five
  rw [h]
  norm_num

/-- C7, amended: with a complete baseline, min_volume equals the 1st
percentile of the raw volume window multiplied by the flat factor 0.5
exactly when the hour lies in 0-7 (the multiplier applied after percentile
extraction), and min_trades is the int-truncation of the 1st percentile of
the trades window, multiplied by 0.5 and truncated again during those
hours. -/
theorem C7_threshold_formula (minPts : ℕ) (st : PairState) (hour : ℕ) (s : Stats)
    (hs : st.statistics = some s) (hlen : minPts ≤ st.volume_hist.length) :
    getValidationThresholds minPts st hour =
      some ⟨true,
        some (percentile st.volume_hist 1 * (if hour < 8 then (1 / 2 : ℚ) else 1)),
        some (if hour < 8
              then pyInt ((pyInt (percentile (intsToRats st.trades_hist) 1) : ℚ) * (1 / 2))
              else pyInt (percentile (intsToRats st.trades_hist) 1))⟩ := by
  unfold getValidationThresholds
  rw [hs]
  rw [if_neg (not_lt.mpr hlen)]
  by_cases hh : hour < 8 <;> simp [hh]

/-- C7, witness: the amended theorem at `stW` during hour 3. -/
theorem C7_witness :
    getValidationThresholds 3 stW 3 =
      some ⟨true,
        some (percentile stW.volume_hist 1 * (if 3 < 8 then (1 / 2 : ℚ) else 1)),
        some (if 3 < 8
              then pyInt ((pyInt (percentile (intsToRats stW.trades_hist) 1) : ℚ) * (1 / 2))
              else pyInt (percentile (intsToRats stW.trades_hist) 1))⟩ :=
  C7_threshold_formula 3 stW 3 ⟨⟨10, 0, 10, 10⟩, ⟨5, 0, 5, 5⟩⟩ rfl (by decide)

/-- C8: an OHLCV sample whose high price is strictly below its low price
(with all prices positive) is rejected with the ValidationError raised by
the structural check, for every baseline state — including a fresh one —
and for every dynamic threshold, timeframe and hour, so the statistical
scoring path is never reached. -/
theorem C8_structural_reject (minPts : ℕ) (timeframe : String) (dynT : ℤ)
    (dynV : ℚ) (st : PairState) (hour : ℕ) (k : Kline)
    (hopen : 0 < k.open_price) (hhigh : 0 < k.high_price)
    (hclose : 0 < k.close_price) (hlt : k.high_price < k.low_price) :
    validateOhlcvData minPts timeframe dynT dynV st hour k =
      Except.error (VError.validation "High price cannot be lower than low price") := by
  unfold validateOhlcvData
  have hlow : 0 < k.low_price := lt_trans hhigh hlt
  rw [if_neg (by push_neg; exact ⟨hopen, hhigh, hlow, hclose⟩), if_pos hlt]

/-- C8, witness: the sample of the spec with high 10 and low 15, validated
against a completely fresh monitor state. -/
theorem C8_witness :
    validateOhlcvData 100 "1m" 2 (1 / 10) emptyPair 12 ⟨0, 10, 10, 15, 12, 100, 50⟩ =
      Except.error (VError.validation "High price cannot be lower than low price") :=
  C8_structural_reject 100 "1m" 2 (1 / 10) emptyPair 12 ⟨0, 10, 10, 15, 12, 100, 50⟩
    (by norm_num) (by norm_num) (by norm_num) (by norm_num)

/-- C9, counterexample: the sleep for a 12-second cycle is exactly 48
seconds; the formula of the claim with any admissible nonzero jitter draw
(here 0.3 s, within a bound of a few hundred milliseconds) differs from
what the code computes — the code adds no jitter. -/
theorem C9_counterexample :
    sleepTime 12 = 48
    ∧ (3 / 10 : ℚ) ≠ 0 ∧ |(3 / 10 : ℚ)| ≤ 1 / 2
    ∧ specSleepWithJitter 12 (3 / 10) ≠ sleepTime 12 := by
  have hs : sleepTime 12 = 48 := by
    unfold sleepTime
    rw [show (60 : ℚ) - 12 = 48 by norm_num, max_eq_right (by norm_num : (0 : ℚ) ≤ 48)]
  refine ⟨hs, by norm_num, ?_, ?_⟩
  · rw [abs_of_pos (by norm_num : (0 : ℚ) < 3 / 10)]
    norm_num
  · rw [hs]
    unfold specSleepWithJitter
    rw [show (60 : ℚ) - 12 = 48 by norm_num, max_eq_right (by norm_num : (0 : ℚ) ≤ 48)]
    norm_num

/-- C9, amended: the sleep before the next dispatch equals
max(0, period - elapsed) exactly, with no jitter term — it differs from the
jittered formula of the spec for every nonzero draw — and an overrunning
cycle sleeps 0, proceeding immediately. -/
theorem C9_sleep_no_jitter (elapsed j : ℚ) (hj : j ≠ 0) :
    (elapsed ≤ 60 → sleepTime elapsed = 60 - elapsed)
    ∧ (60 ≤ elapsed → sleepTime elapsed = 0)
    ∧ sleepTime elapsed ≠ specSleepWithJitter elapsed j := by
  unfold sleepTime specSleepWithJitter
  refine ⟨fun h => max_eq_right (by linarith), fun h => max_eq_left (by linarith), ?_⟩
  intro heq
  exact hj (by linarith)

/-- C9, witness: the amended theorem for the 12-second cycle of the spec
example and the jitter draw 0.3. -/
theorem C9_witness :
    ((12 : ℚ) ≤ 60 → sleepTime 12 = 60 - 12)
    ∧ ((60 : ℚ) ≤ 12 → sleepTime 12 = 0)
    ∧ sleepTime 12 ≠ specSleepWithJitter 12 (3 / 10) :=
  C9_sleep_no_jitter 12 (3 / 10) (by norm_num)

/-- C10: a validate call whose data dict is missing the volume or trades
key behaves exactly as if the missing value were 0 — same verdict, same
findings, same metrics — and no error is raised (the embedding is total). -/
theorem C10_missing_keys_default_zero (minPts : ℕ) (st : PairState) (hour : ℕ)
    (v : ℚ) (t : ℤ) :
    validateData minPts st hour ⟨none, none⟩ = validateData minPts st hour ⟨some 0, some 0⟩
    ∧ validateData minPts st hour ⟨none, some t⟩ = validateData minPts st hour ⟨some 0, some t⟩
    ∧ validateData minPts st hour ⟨some v, none⟩ = validateData minPts st hour ⟨some v, some 0⟩ :=
  ⟨rfl, rfl, rfl⟩
